import Mathlib

/-!
Verification of `janitor.functions.summarise` (src/janitor/functions/summarise.py).

The module is embedded shallowly:
* Python values that can appear in an aggregation tuple (column selectors,
  function specifications, names) are the inductive `PyVal`.
* A pandas DataFrame is `Frame`: an explicit column header (an ordered list of
  label levels, following the representation of spec §9 and the use in the
  code of `columns.nlevels`, `columns.size`, `get_level_values`,
  `MultiIndex.from_arrays`), a row index and the data rows.
* The external collaborators (the pandas aggregation primitive `agg`, the
  `describe` mode and `pipe`, see spec §6) are an explicit oracle record
  `Pandas`; `summarise` is parametric in it.  The capability gap of the
  primitive is signalled by `PyErr.attrError`, the exception class the source
  catches (line 180).
* Python exceptions are `PyErr`; `summarise` returns `Except PyErr Obj`.

Each definition mirrors the source lines cited in its doc comment.
-/

/-- A Python value that can occur in a raw aggregation tuple: a string, an
integer, an opaque callable (identified by a number) or a list. -/
inductive PyVal where
  | str (s : String)
  | int (n : Int)
  | fn (id : Nat)
  | list (xs : List PyVal)

mutual

/-- Python `==` on the embedded values (structural equality). -/
def PyVal.beq : PyVal → PyVal → Bool
  | .str a, .str b => a == b
  | .int a, .int b => a == b
  | .fn a, .fn b => a == b
  | .list xs, .list ys => PyVal.beqList xs ys
  | _, _ => false

/-- Python `==` on lists of embedded values, element-wise. -/
def PyVal.beqList : List PyVal → List PyVal → Bool
  | [], [] => true
  | x :: xs, y :: ys => PyVal.beq x y && PyVal.beqList xs ys
  | _, _ => false

end

instance : BEq PyVal := ⟨PyVal.beq⟩

/-- Python truthiness for `PyVal` (`if val.name:`, `if by:`): empty strings,
zero and empty lists are falsy. -/
def PyVal.truthy : PyVal → Bool
  | .str s => !s.isEmpty
  | .int n => n != 0
  | .fn _ => true
  | .list xs => !xs.isEmpty

/-- `isinstance(v, str)`. -/
def PyVal.isStr : PyVal → Bool
  | .str _ => true
  | _ => false

/-- Python `callable(v)`. -/
def PyVal.isCallable : PyVal → Bool
  | .fn _ => true
  | _ => false

/-- `isinstance(v, list)`. -/
def PyVal.isList : PyVal → Bool
  | .list _ => true
  | _ => false

/-- `isinstance(v, Hashable)`: everything here but lists is hashable. -/
def PyVal.isHashable : PyVal → Bool
  | .list _ => false
  | _ => true

/-- `pandas.api.types.is_scalar`: lists are not scalars, labels are. -/
def is_scalar : PyVal → Bool
  | .list _ => false
  | _ => true

/-- A pandas DataFrame, reduced to what `summarise` observes: the column
header as an ordered list of label levels (a flat `pd.Index` is one level, a
`pd.MultiIndex` several; all levels have one label per column), the row index
and the rows of data. -/
structure Frame where
  header : List (List PyVal)
  index : List PyVal
  data : List (List PyVal)

/-- `frame.columns.nlevels`: the number of header levels. -/
def Frame.nlevels (f : Frame) : Nat := f.header.length

/-- `frame.columns.size` / `len(frame.columns)`: the number of columns. -/
def Frame.ncols (f : Frame) : Nat := (f.header.headD []).length

/-- A Python object that can end up in the `aggs_` accumulator of the source:
a DataFrame, a Series (opaque: only its not-being-a-DataFrame matters), or a
bare value such as a column label. -/
inductive Obj where
  | frame (f : Frame)
  | series (id : Nat)
  | pyval (v : PyVal)

/-- The Python exceptions the embedded code can raise or observe. -/
inductive PyErr where
  | valueError (msg : String)
  | typeError (msg : String)
  | attrError (msg : String)
  | keyError (msg : String)
  | indexError

/-- The grouping view `val` of the source (lines 157-167): the plain frame, a
`df.groupby(list(by))` on resolved key columns, or a `df.groupby(**by)` built
from a dict of engine options (kept opaque). -/
inductive Grouping where
  | ungrouped
  | byCols (ks : List PyVal)
  | byDict (cfg : List (String × PyVal))

/-- The `by` argument of `summarise`: absent (`None`), a dict of grouping
options, or a column-selector value (a scalar label or a list of labels). -/
inductive ByArg where
  | noneB
  | dictB (cfg : List (String × PyVal))
  | valB (v : PyVal)

/-- Python truthiness of the `by` argument (`if by:`, line 158): `None`, an
empty dict and an empty list are falsy. -/
def byTruthy : ByArg → Bool
  | .noneB => false
  | .dictB cfg => !cfg.isEmpty
  | .valB v => v.truthy

/-- The external pandas collaborators (spec §6), as an oracle record:
`agg df g cols funcs` is `val[cols].agg(funcs)` for the view `g` over `df`;
`describe df g cols` is `val[cols].agg("describe")`; `pipe df g cols f` is
`val[cols].pipe(f)`.  A capability gap of the primitive is signalled by
`PyErr.attrError`, the exception class caught at source line 180. -/
structure Pandas where
  agg : Frame → Grouping → List PyVal → List PyVal → Except PyErr Obj
  describe : Frame → Grouping → List PyVal → Except PyErr Obj
  pipe : Frame → Grouping → List PyVal → PyVal → Except PyErr Obj

/-- The normalized aggregation request appended to `aggs` at source line 155:
`_tupled(col=val.col, func=func, name=val.name)` with `func` already wrapped
into a list. -/
structure AggSpec where
  col : PyVal
  func : List PyVal
  name : Option PyVal

/-- Error message of the arity check at source lines 129-133. -/
def arityLowMsg (num : Nat) : String :=
  "The tuple argument at position " ++ toString num ++
    " should have at least a column and an aggregation function."

/-- Error message of the arity check at source lines 135-138. -/
def arityHighMsg (num : Nat) : String :=
  "The tuple argument at position " ++ toString num ++
    " should be a maximum length of 3."

/-- Modelled from the spec: `janitor.utils.check` (not under src/) raises a
`TypeError` naming the checked variable when the value is not an instance of
one of the expected types (the type validation of spec §4.1). -/
def checkMsg (varname : String) : String :=
  varname ++ " should be one of the expected types."

/-- Unwraps the (already type-checked) `func` value into the Python list the
source stores in the request record. -/
def funcList : PyVal → List PyVal
  | .list xs => xs
  | v => [v]

/-- The Request Normalizer for one destructured tuple at position `num`,
source lines 139-155: the `_tupled` destructuring with `name` defaulting to
absent (line 139; `_tupled` is not under src/ and is modelled from spec §4.1:
"Destructures into (col, func, name), with name defaulting to absent when
arity is 2"), the wrap of a single symbolic/callable `func` into a list
(lines 141-142), the `check` of `func` against `[str, callable, list]`
(lines 143-147), and the `check` of a truthy `name` against `[Hashable]`
(lines 148-153). -/
def normalizeBody (num : Nat) (c f0 : PyVal) (name : Option PyVal) :
    Except PyErr AggSpec :=
  let func := if f0.isStr || f0.isCallable then PyVal.list [f0] else f0
  if !(func.isStr || func.isCallable || func.isList) then
    .error (.typeError
      (checkMsg ("func in tuple argument at position " ++ toString num)))
  else if (name.elim false PyVal.truthy)
      && !((name.getD (.str "")).isHashable) then
    .error (.typeError
      (checkMsg ("name in tuple argument at position " ++ toString num)))
  else .ok { col := c, func := funcList func, name := name }

/-- The arity checks of the Normalizer (source lines 128-138) in front of
`normalizeBody`; the destructure takes `rest.head?` as the optional name. -/
def normalizeOne (num : Nat) (arg : List PyVal) : Except PyErr AggSpec :=
  if arg.length < 2 then .error (.valueError (arityLowMsg num))
  else if 3 < arg.length then .error (.valueError (arityHighMsg num))
  else
    match arg with
    | c :: f0 :: rest => normalizeBody num c f0 rest.head?
    | _ => .error (.valueError (arityLowMsg num))

/-- The Normalizer over the whole argument sequence (the `for num, arg in
enumerate(args)` loop of source line 126): positions count up from `num`, the
first failure aborts the batch. -/
def normalizeAll (num : Nat) : List (List PyVal) → Except PyErr (List AggSpec)
  | [] => .ok []
  | arg :: rest =>
    match normalizeOne num arg with
    | .error e => .error e
    | .ok a =>
      match normalizeAll (num + 1) rest with
      | .error e => .error e
      | .ok as => .ok (a :: as)

/-- Modelled from the spec: `janitor.functions.utils.get_index_labels` (not
under src/) resolves a column selector against the schema (§4.2): a literal
name resolves to itself, a list selector is returned as-is, order preserved;
pattern selectors are outside this model. -/
def get_index_labels (sel : PyVal) (df : Frame) : PyVal :=
  let _ := df
  sel

/-- `out = [out] if is_scalar(out) else out.tolist()` (source lines 164 and
170): a scalar label becomes a singleton list, a list keeps its elements. -/
def wrapScalar (v : PyVal) : List PyVal :=
  if is_scalar v then [v]
  else
    match v with
    | .list xs => xs
    | w => [w]

/-- The Grouping Resolver, source lines 157-167: a falsy `by` leaves the plain
frame; a dict is forwarded to `df.groupby(**by)`; anything else is resolved
via `get_index_labels`, coerced to a list, and bound with `df.groupby`. -/
def resolveGrouping (b : ByArg) (df : Frame) : Grouping :=
  if byTruthy b then
    match b with
    | .dictB cfg => .byDict cfg
    | .valB v => .byCols (wrapScalar (get_index_labels v df))
    | .noneB => .ungrouped
  else .ungrouped

/-- The per-request output right before the append at source lines 191-194:
a single object, a Python list of objects (fallback path with several
callables), or the untouched resolved column-label list (the swallowed
`AttributeError` leaves `out` bound to the list from line 170). -/
inductive PerOut where
  | single (o : Obj)
  | many (os : List Obj)
  | rawCols (ls : List PyVal)

/-- The rename step, source lines 185-190: only when `ag.name` is truthy, the
output is a DataFrame and it has exactly one column is the column header
overwritten with the flat one-label index `pd.Index([ag.name])`. -/
def applyRename (name : Option PyVal) (po : PerOut) : PerOut :=
  match po with
  | .single (.frame f) =>
    if name.elim false PyVal.truthy && (f.ncols == 1) then
      .single (.frame { f with header := [[name.getD (.str "")]] })
    else po
  | _ => po

/-- The fallback execution path, source lines 181-184:
`out = [val[out].pipe(func) for func in ag.func]`, collapsed to the single
element when the list has length one.  An exception from a `pipe` call
propagates (it is raised inside the `except` handler). -/
def execFallback (P : Pandas) (df : Frame) (g : Grouping)
    (cols : List PyVal) (funcs : List PyVal) : Except PyErr PerOut :=
  match funcs.mapM (P.pipe df g cols) with
  | .error e => .error e
  | .ok os =>
    match os with
    | [o] => .ok (.single o)
    | _ => .ok (.many os)

/-- The try/except around the primary path, source lines 178-184: on success
`out` is the aggregate; on `AttributeError`, if every function is callable the
fallback runs, otherwise the exception is swallowed by the bare `if` and `out`
keeps its previous value — the resolved column-label list of line 170.  Any
other exception propagates. -/
def execAgg (P : Pandas) (df : Frame) (g : Grouping)
    (cols : List PyVal) (funcs : List PyVal) : Except PyErr PerOut :=
  match P.agg df g cols funcs with
  | .ok o => .ok (.single o)
  | .error (.attrError _) =>
    if funcs.all PyVal.isCallable then execFallback P df g cols funcs
    else .ok (.rawCols cols)
  | .error e => .error e

/-- `aggs_.extend(out)` versus `aggs_.append(out)`, source lines 191-194: a
Python list is spread element-wise (the raw column labels become bare
values), a single object is appended. -/
def flattenOut : PerOut → List Obj
  | .single o => [o]
  | .many os => os
  | .rawCols ls => ls.map Obj.pyval

/-- The Aggregation Executor for one normalized request, source lines
168-194: resolve the columns (169-170), reject `describe` combined with any
other function (171-174), run the `describe` single-function path (175-176)
or the primary path with fallback (177-184), apply the rename (185-190) and
flatten into the accumulator (191-194).  `ag.func[0]` on an empty function
list raises `IndexError`. -/
def execOne (P : Pandas) (df : Frame) (g : Grouping) (a : AggSpec) :
    Except PyErr (List Obj) :=
  let cols := wrapScalar (get_index_labels a.col df)
  if a.func.contains (PyVal.str "describe") ∧ 1 < a.func.length then
    .error (.valueError "Kindly pass `describe` as a single func in a separate tuple")
  else
    let poE : Except PyErr PerOut :=
      match a.func.head? with
      | none => .error .indexError
      | some f0 =>
        if f0 == PyVal.str "describe" then
          match P.describe df g cols with
          | .ok o => .ok (.single o)
          | .error e => .error e
        else execAgg P df g cols a.func
    match poE with
    | .error e => .error e
    | .ok po => .ok (flattenOut (applyRename a.name po))

/-- The executor loop over all requests (`for ag in aggs:`, source line 168),
accumulating `aggs_`; the first exception aborts the batch. -/
def execAll (P : Pandas) (df : Frame) (g : Grouping) :
    List AggSpec → Except PyErr (List Obj)
  | [] => .ok []
  | a :: rest =>
    match execOne P df g a with
    | .error e => .error e
    | .ok os =>
      match execAll P df g rest with
      | .error e => .error e
      | .ok rs => .ok (os ++ rs)

/-- `frame.columns.nlevels` read off an arbitrary accumulator entry: a
non-DataFrame has no `columns` attribute and raises `AttributeError`. -/
def Obj.nlevelsE : Obj → Except PyErr Nat
  | .frame f => .ok f.nlevels
  | _ => .error (.attrError "object has no attribute columns")

/-- Header depth of an accumulator entry, zero for non-frames (used only to
state results about reconciled lists, not by the embedding itself). -/
def Obj.depth : Obj → Nat
  | .frame f => f.nlevels
  | _ => 0

/-- The padding of one frame, source lines 201-210: when the frame has fewer
levels than `len_no_of_levels`, the existing levels are kept
(`get_level_values`) and `size = len_no_of_levels - frame_nlevels` extra
levels of empty-string labels (`[[""] * frame.columns.size] * size`) are
appended. -/
def padFrame (L : Nat) (f : Frame) : Frame :=
  if f.nlevels < L then
    { f with
      header := f.header ++
        List.replicate (L - f.nlevels) (List.replicate f.ncols (PyVal.str "")) }
  else f

/-- The padding applied to an accumulator entry; touching `.columns` of a
non-DataFrame raises `AttributeError`. -/
def padObj (L : Nat) : Obj → Except PyErr Obj
  | .frame f => .ok (.frame (padFrame L f))
  | _ => .error (.attrError "object has no attribute columns")

/-- A Python set of naturals, as the list of its distinct elements in first
occurrence order (only its size is ever read by the source). -/
def pySet (xs : List Nat) : List Nat :=
  xs.foldl (fun s x => if x ∈ s then s else s ++ [x]) []

/-- The shape-reconciliation block of the Result Assembler, source lines
196-212: collect the set of header depths (`no_of_levels`); when more than
one distinct depth occurs, every frame with fewer levels than
`len(no_of_levels)` — the number of DISTINCT depths — is padded up to that
number of levels. -/
def reconcileAll (objs : List Obj) : Except PyErr (List Obj) :=
  match objs.mapM Obj.nlevelsE with
  | .error e => .error e
  | .ok lv =>
    if 1 < (pySet lv).length then objs.mapM (padObj (pySet lv).length)
    else .ok objs

/-- Modelled from the spec: pandas `concat` along axis 1 (§4.5 step 4,
"side-by-side column-wise union, rows aligned by shared group-key index"):
headers are joined level-wise, the row index of the left operand carries, the
rows are joined element-wise. -/
def Frame.hcat (a b : Frame) : Frame :=
  { header := List.zipWith (fun x y => x ++ y) a.header b.header
    index := a.index
    data := List.zipWith (fun x y => x ++ y) a.data b.data }

/-- Modelled from the spec: pandas `concat` along axis 0 (§4.5 step 4,
"stacked row-wise, sharing a common column layout"): the column layout of the
first operand carries, the rows and row labels are appended. -/
def Frame.vcat (a b : Frame) : Frame :=
  { header := a.header
    index := a.index ++ b.index
    data := a.data ++ b.data }

/-- Modelled from the spec: `pd.concat(objs, axis=axis)` over the
accumulator; a non-DataFrame entry is a `TypeError`, an empty list a
`ValueError`; frames are folded left with `hcat` (axis 1) or `vcat`
(axis 0). -/
def pdConcat (axis : Nat) (objs : List Obj) : Except PyErr Obj :=
  match objs.mapM (fun o =>
      match o with
      | .frame f => Except.ok f
      | _ => Except.error (PyErr.typeError "cannot concatenate object")) with
  | .error e => .error e
  | .ok fs =>
    match fs with
    | [] => .error (.valueError "No objects to concatenate")
    | f :: rest =>
      .ok (.frame (rest.foldl
        (fun acc x => if axis = 1 then acc.hcat x else acc.vcat x) f))

/-- The Result Assembler, source lines 195-216: with more than one partial
result, reconcile the header depths and concatenate along axis 1 when
grouping was active, else axis 0; otherwise return the single entry
(`aggs_[0]`, an `IndexError` on an empty accumulator). -/
def assemble (bt : Bool) (objs : List Obj) : Except PyErr Obj :=
  if 1 < objs.length then
    match reconcileAll objs with
    | .error e => .error e
    | .ok objs2 =>
      if bt then pdConcat 1 objs2 else pdConcat 0 objs2
  else
    match objs.head? with
    | some o => .ok o
    | none => .error .indexError

/-- The whole of `summarise`, source lines 123-216: reject an empty request
batch (123-124), normalize every raw tuple (125-155), resolve the grouping
(156-167), execute every request (168-194) and assemble the result
(195-216). -/
def summarise (P : Pandas) (df : Frame) (args : List (List PyVal))
    (b : ByArg) : Except PyErr Obj :=
  if args.isEmpty then
    .error (.valueError "Kindly provide at least one aggregation tuple.")
  else
    match normalizeAll 0 args with
    | .error e => .error e
    | .ok aggs =>
      let bt := byTruthy b
      let g := resolveGrouping b df
      match execAll P df g aggs with
      | .error e => .error e
      | .ok objs => assemble bt objs

/-!  State-threaded view of the same code, used to express that the input
frame is only ever read.  Every step that touches the dataset receives the
current frame and hands back the frame it leaves behind; the two in-place
column assignments of the source (lines 190 and 210) target objects freshly
produced by the aggregation primitive, never the input frame, and the
external collaborators are read-only over the dataset (spec §5: "the dataset
is treated as read-only input").  -/

/-- The executor for one request, threading the dataset through each of its
reads (column resolution and the oracle calls). -/
def execOneSt (P : Pandas) (g : Grouping) (a : AggSpec) (df : Frame) :
    Except PyErr (List Obj) × Frame :=
  let cols := wrapScalar (get_index_labels a.col df)
  if a.func.contains (PyVal.str "describe") ∧ 1 < a.func.length then
    (.error (.valueError "Kindly pass `describe` as a single func in a separate tuple"), df)
  else
    let poE : Except PyErr PerOut :=
      match a.func.head? with
      | none => .error .indexError
      | some f0 =>
        if f0 == PyVal.str "describe" then
          match P.describe df g cols with
          | .ok o => .ok (.single o)
          | .error e => .error e
        else execAgg P df g cols a.func
    match poE with
    | .error e => (.error e, df)
    | .ok po => (.ok (flattenOut (applyRename a.name po)), df)

/-- The executor loop, threading the dataset from request to request. -/
def execAllSt (P : Pandas) (g : Grouping) :
    List AggSpec → Frame → Except PyErr (List Obj) × Frame
  | [], df => (.ok [], df)
  | a :: rest, df =>
    match execOneSt P g a df with
    | (.error e, df1) => (.error e, df1)
    | (.ok os, df1) =>
      match execAllSt P g rest df1 with
      | (.error e, df2) => (.error e, df2)
      | (.ok rs, df2) => (.ok (os ++ rs), df2)

/-- The whole of `summarise`, threading the dataset through the grouping
resolution and the executor loop and returning the frame left behind next to
the result. -/
def summariseSt (P : Pandas) (args : List (List PyVal)) (b : ByArg)
    (df : Frame) : Except PyErr Obj × Frame :=
  if args.isEmpty then
    (.error (.valueError "Kindly provide at least one aggregation tuple."), df)
  else
    match normalizeAll 0 args with
    | .error e => (.error e, df)
    | .ok aggs =>
      let bt := byTruthy b
      let g := resolveGrouping b df
      match execAllSt P g aggs df with
      | (.error e, df2) => (.error e, df2)
      | (.ok objs, df2) => (assemble bt objs, df2)

/-- Drops a present-but-falsy third (name) element from a raw tuple, leaving
every other shape alone. -/
def scrubArg (arg : List PyVal) : List PyVal :=
  match arg with
  | [c, f, n] => if n.truthy then [c, f, n] else [c, f]
  | other => other

/-- Replaces a present-but-falsy name of a normalized request by an absent
one. -/
def scrubSpec (a : AggSpec) : AggSpec :=
  match a.name with
  | some v => if v.truthy then a else { a with name := none }
  | none => a

/-! Concrete fixtures used by counterexamples and witnesses. -/

/-- A dataset with columns `x`, `y`, `g` and two rows. -/
def demoDf : Frame :=
  { header := [[.str "x", .str "y", .str "g"]]
    index := [.int 0, .int 1]
    data := [[.int 1, .int 4, .str "a"], [.int 2, .int 6, .str "a"]] }

/-- A one-column, one-row aggregate as the primitive would produce it. -/
def demoOut : Frame :=
  { header := [[.str "res"]], index := [.str "a"], data := [[.int 10]] }

/-- A concrete oracle: the primitive signals a capability gap
(`AttributeError`) for the unknown symbolic function `"bogus"` and otherwise
returns the one-column aggregate `demoOut`. -/
def demoP : Pandas :=
  { agg := fun _ _ _ funcs =>
      if funcs.contains (PyVal.str "bogus") then
        .error (.attrError "bogus is not a valid function")
      else .ok (.frame demoOut)
    describe := fun _ _ _ => .ok (.frame demoOut)
    pipe := fun _ _ _ _ => .ok (.frame demoOut) }

/-- A partial result of header depth 1. -/
def fD1 : Frame := { header := [[.str "a"]], index := [.int 0], data := [[.int 1]] }

/-- A partial result of header depth 3. -/
def fD3 : Frame :=
  { header := [[.str "b"], [.str "c"], [.str "d"]]
    index := [.int 0]
    data := [[.int 2]] }

/-- C1: the claim states that the assembler pads every shallower partial
result up to the MAXIMUM observed header depth, so that after reconciliation
every partial result has exactly that depth.  The source (line 199) instead
pads up to `len(no_of_levels)`, the number of DISTINCT depths.  With partial
results of depths 1 and 3 the maximum is 3 but the code pads only up to 2
levels: the reconciled depths are 2 and 3, neither uniform nor equal to the
maximum, so the merged table can still misalign labels. -/
theorem summarise_pad_uses_distinct_count :
    fD1.nlevels = 1 ∧ fD3.nlevels = 3 ∧
    (reconcileAll [Obj.frame fD1, Obj.frame fD3]).map (List.map Obj.depth) =
      Except.ok [2, 3] :=
  ⟨rfl, rfl, rfl⟩

/-- C2: the claim states that a symbolic function the primary aggregation
path cannot apply makes `summarise` fail with an `UnsupportedFunction`
error.  The source instead catches the `AttributeError` (line 180) and, when
not every function is callable, the bare `if` at lines 181-184 swallows it:
`out` keeps its previous value — the resolved column-label list of line 170 —
which is then spread into the accumulator and returned.  Here the oracle
signals the capability gap for the unknown symbolic function `"bogus"`, yet
`summarise` succeeds and returns the bare column label `"x"`. -/
theorem summarise_swallows_unknown_symbolic :
    demoP.agg demoDf Grouping.ungrouped [PyVal.str "x"] [PyVal.str "bogus"] =
      Except.error (PyErr.attrError "bogus is not a valid function") ∧
    summarise demoP demoDf [[PyVal.str "x", PyVal.str "bogus"]] ByArg.noneB =
      Except.ok (Obj.pyval (PyVal.str "x")) :=
  ⟨rfl, rfl⟩

/-- C3 counterexample: the claim states the Normalizer validates every
element of a `func` list and fails with `InvalidArgument` naming the
offending position when an element is neither a symbolic string nor a
callable.  The `check` at source lines 143-147 only tests the `func` value
itself against `[str, callable, list]`: the list `[7]`, whose sole element is
neither, passes normalization untouched. -/
theorem normalizer_accepts_invalid_list_element :
    normalizeOne 0 [PyVal.str "x", PyVal.list [PyVal.int 7]] =
      Except.ok ⟨PyVal.str "x", [PyVal.int 7], none⟩ :=
  rfl

/-- C3 amended: for every raw tuple whose `func` element is a list, the
Normalizer accepts it without inspecting the elements: normalization
succeeds and stores the list as given, whatever its elements are; invalid
elements can only surface later, during aggregation execution. -/
theorem normalizer_list_func_unvalidated (num : Nat) (c : PyVal)
    (xs : List PyVal) :
    normalizeOne num [c, PyVal.list xs] = Except.ok ⟨c, xs, none⟩ :=
  rfl

/-- Shared helper: the describe-combination check of the Executor (source
lines 171-174) fires for every request whose function list contains
`"describe"` next to at least one other function, before any oracle call. -/
theorem execOne_describe_mixed (P : Pandas) (df : Frame) (g : Grouping)
    (a : AggSpec) (h1 : a.func.contains (PyVal.str "describe") = true)
    (h2 : 1 < a.func.length) :
    execOne P df g a =
      .error (.valueError "Kindly pass `describe` as a single func in a separate tuple") := by
  simp only [execOne]
  rw [if_pos ⟨h1, h2⟩]

/-- C6: for every aggregation request whose function list contains the
symbolic `"describe"` together with at least one other function, the
Executor fails with the `InvalidArgument` of source lines 171-174, and so
does `summarise` on an invocation carrying such a request. -/
theorem summarise_describe_combination_rejected (P : Pandas) (df : Frame)
    (g : Grouping) (a : AggSpec) (b : ByArg) (c : PyVal) (fs : List PyVal)
    (h1 : a.func.contains (PyVal.str "describe") = true)
    (h2 : 1 < a.func.length)
    (h3 : fs.contains (PyVal.str "describe") = true) (h4 : 1 < fs.length) :
    execOne P df g a =
      .error (.valueError "Kindly pass `describe` as a single func in a separate tuple") ∧
    summarise P df [[c, PyVal.list fs]] b =
      .error (.valueError "Kindly pass `describe` as a single func in a separate tuple") := by
  refine ⟨execOne_describe_mixed P df g a h1 h2, ?_⟩
  have hn : normalizeAll 0 [[c, PyVal.list fs]] =
      Except.ok [⟨c, fs, none⟩] := rfl
  have he := execOne_describe_mixed P df (resolveGrouping b df)
    ⟨c, fs, none⟩ h3 h4
  simp only [summarise, List.isEmpty_cons, Bool.false_eq_true, if_false, hn]
  simp only [execAll, he]

/-- C6 witness: a concrete invocation combining `"describe"` with `"mean"`
in one tuple is rejected. -/
theorem summarise_describe_combination_rejected_witness :
    summarise demoP demoDf
        [[PyVal.str "x", PyVal.list [PyVal.str "describe", PyVal.str "mean"]]]
        ByArg.noneB =
      .error (.valueError "Kindly pass `describe` as a single func in a separate tuple") :=
  (summarise_describe_combination_rejected demoP demoDf Grouping.ungrouped
    ⟨PyVal.str "x", [PyVal.str "describe", PyVal.str "mean"], none⟩
    ByArg.noneB (PyVal.str "x") [PyVal.str "describe", PyVal.str "mean"]
    rfl (by decide) rfl (by decide)).2

/-- C7: the arity checks of the Normalizer, source lines 128-138: a tuple of
arity below 2 fails with the `InvalidArgument` whose message names position
`num`; a tuple of arity above 3 likewise; a tuple of arity 2 or 3 passes this
check, its normalization ending in success or in one of the later type
checks (a `TypeError`), never in an arity error. -/
theorem normalizer_arity_check (num : Nat) (arg : List PyVal) :
    (arg.length < 2 →
      normalizeOne num arg = .error (.valueError (arityLowMsg num))) ∧
    (3 < arg.length →
      normalizeOne num arg = .error (.valueError (arityHighMsg num))) ∧
    (2 ≤ arg.length → arg.length ≤ 3 →
      (∃ a, normalizeOne num arg = .ok a) ∨
      (∃ m, normalizeOne num arg = .error (.typeError m))) := by
  refine ⟨?_, ?_, ?_⟩
  · intro h
    simp [normalizeOne, h]
  · intro h
    have h2 : ¬ arg.length < 2 := by omega
    simp [normalizeOne, h, h2]
  · intro h2 h3
    match arg, h2 with
    | a :: f0 :: rest, _ =>
      have e1 : ¬ ((a :: f0 :: rest).length < 2) := by simp
      have e2 : ¬ (3 < (a :: f0 :: rest).length) := by
        simpa using h3
      simp only [normalizeOne, if_neg e1, if_neg e2, normalizeBody]
      split
      all_goals split
      all_goals try exact Or.inr ⟨_, rfl⟩
      all_goals split
      all_goals try exact Or.inr ⟨_, rfl⟩
      all_goals exact Or.inl ⟨_, rfl⟩

/-- C7 witness: arity 1 fails naming position 5, arity 4 fails naming
position 2, arity 2 passes the arity check. -/
theorem normalizer_arity_check_witness :
    normalizeOne 5 [PyVal.str "only"] =
      .error (.valueError (arityLowMsg 5)) ∧
    normalizeOne 2
        [PyVal.str "a", PyVal.str "b", PyVal.str "c", PyVal.str "d"] =
      .error (.valueError (arityHighMsg 2)) ∧
    ((∃ a, normalizeOne 0 [PyVal.str "x", PyVal.str "mean"] = .ok a) ∨
      (∃ m, normalizeOne 0 [PyVal.str "x", PyVal.str "mean"] =
        .error (.typeError m))) :=
  ⟨(normalizer_arity_check 5 [PyVal.str "only"]).1 (by decide),
   (normalizer_arity_check 2
      [PyVal.str "a", PyVal.str "b", PyVal.str "c", PyVal.str "d"]).2.1
     (by decide),
   (normalizer_arity_check 0 [PyVal.str "x", PyVal.str "mean"]).2.2
     (by decide) (by decide)⟩

/-- C5: the rename step of the Executor, source lines 185-190, for a truthy
requested name: when the produced output is a DataFrame with exactly one
column, its column header is overwritten with exactly that name (as a flat
one-label index); when it has any other number of columns the output is
returned unchanged — the rename is silently skipped, and `applyRename` being
total, no error is raised. -/
theorem summarise_rename_single_column (v : PyVal) (f : Frame)
    (hv : v.truthy = true) :
    applyRename (some v) (.single (.frame f)) =
      .single (.frame
        (if f.ncols = 1 then { f with header := [[v]] } else f)) := by
  by_cases h : f.ncols = 1
  · simp [applyRename, hv, h]
  · simp [applyRename, hv, h]

/-- C5 witness: the one-column aggregate `demoOut` is relabeled to
`jump_avg`. -/
theorem summarise_rename_single_column_witness :
    (PyVal.str "jump_avg").truthy = true ∧
    applyRename (some (PyVal.str "jump_avg")) (.single (.frame demoOut)) =
      .single (.frame { demoOut with header := [[PyVal.str "jump_avg"]] }) := by
  refine ⟨rfl, ?_⟩
  have h := summarise_rename_single_column (PyVal.str "jump_avg") demoOut rfl
  simpa [demoOut, Frame.ncols] using h

/-- C4: for every invocation whose executor produced more than one partial
result, `summarise` returns the concatenation of the (depth-reconciled)
partial results in order, along axis 1 — the side-by-side, column-wise merge
`Frame.hcat` — exactly when grouping was active, and along axis 0 — the
stacked, row-wise merge `Frame.vcat` — otherwise (source lines 213-215).
The reconciliation only ever extends headers of the listed frames, so `rs`
is the partial results of `ps` with padded headers, same order and length. -/
theorem summarise_concat_axis_by_grouping (P : Pandas) (df : Frame)
    (args : List (List PyVal)) (b : ByArg) (aggs : List AggSpec)
    (ps rs : List Obj)
    (h0 : args.isEmpty = false)
    (hn : normalizeAll 0 args = .ok aggs)
    (he : execAll P df (resolveGrouping b df) aggs = .ok ps)
    (hp : 1 < ps.length)
    (hr : reconcileAll ps = .ok rs) :
    summarise P df args b =
      (if byTruthy b then pdConcat 1 rs else pdConcat 0 rs) := by
  simp only [summarise, h0, Bool.false_eq_true, if_false, hn]
  simp only [he, assemble, if_pos hp, hr]

/-- C4 witness: two single-column requests under an active grouping merge
along axis 1; the hypotheses hold at this concrete invocation. -/
theorem summarise_concat_axis_by_grouping_witness :
    summarise demoP demoDf
        [[PyVal.str "x", PyVal.str "mean"], [PyVal.str "y", PyVal.str "mean"]]
        (ByArg.valB (PyVal.list [PyVal.str "g"])) =
      (if byTruthy (ByArg.valB (PyVal.list [PyVal.str "g"])) then
        pdConcat 1 [Obj.frame demoOut, Obj.frame demoOut]
      else pdConcat 0 [Obj.frame demoOut, Obj.frame demoOut]) :=
  summarise_concat_axis_by_grouping demoP demoDf
    [[PyVal.str "x", PyVal.str "mean"], [PyVal.str "y", PyVal.str "mean"]]
    (ByArg.valB (PyVal.list [PyVal.str "g"]))
    [⟨PyVal.str "x", [PyVal.str "mean"], none⟩,
     ⟨PyVal.str "y", [PyVal.str "mean"], none⟩]
    [Obj.frame demoOut, Obj.frame demoOut]
    [Obj.frame demoOut, Obj.frame demoOut]
    rfl rfl rfl (by decide) rfl

/-- Shared helper: the state-threaded executor for one request only reads the
dataset. -/
theorem execOneSt_eq (P : Pandas) (g : Grouping) (a : AggSpec) (df : Frame) :
    execOneSt P g a df = (execOne P df g a, df) := by
  simp only [execOneSt, execOne]
  split
  · rfl
  · split <;> rfl

/-- Shared helper: the state-threaded executor loop only reads the
dataset. -/
theorem execAllSt_eq (P : Pandas) (g : Grouping) (as : List AggSpec)
    (df : Frame) :
    execAllSt P g as df = (execAll P df g as, df) := by
  induction as with
  | nil => rfl
  | cons a rest ih =>
    simp only [execAllSt, execAll, execOneSt_eq]
    cases hx : execOne P df g a with
    | error e => rfl
    | ok os =>
      dsimp only
      rw [ih]
      cases hy : execAll P df g rest <;> rfl

/-- C8: `summarise`, run with the dataset threaded through every step that
touches it, returns the pure result next to the input frame unchanged: the
whole invocation — succeeding or failing — only reads the dataset; the only
column-header writes of the source (lines 190 and 210) target the freshly
produced partial results.  The external collaborators are read-only over the
dataset by their contract (spec §5). -/
theorem summarise_leaves_input_frame_unchanged (P : Pandas) (df : Frame)
    (args : List (List PyVal)) (b : ByArg) :
    summariseSt P args b df = (summarise P df args b, df) := by
  simp only [summariseSt, summarise]
  split
  · rfl
  · cases hn : normalizeAll 0 args with
    | error e => rfl
    | ok aggs =>
      simp only [execAllSt_eq]
      cases he : execAll P df (resolveGrouping b df) aggs <;> rfl

/-- C10: a present-but-falsy `by` (an empty list, an empty dict, …) fails
the truthiness test of source line 158, so `by_is_true` stays false and the
view stays the plain dataset: the invocation behaves exactly as with `by`
absent — ungrouped execution, and (by lines 213-215) row-wise, stacked
concatenation of multiple partial results. -/
theorem summarise_falsy_by_ungrouped (P : Pandas) (df : Frame)
    (args : List (List PyVal)) (b : ByArg) (hb : byTruthy b = false) :
    summarise P df args b = summarise P df args ByArg.noneB := by
  have h2 : byTruthy ByArg.noneB = false := rfl
  simp only [summarise, resolveGrouping, hb, h2, Bool.false_eq_true, if_false]

/-- C10 witness: an empty-list `by` gives the same result as an absent
`by`. -/
theorem summarise_falsy_by_ungrouped_witness :
    byTruthy (ByArg.valB (PyVal.list [])) = false ∧
    summarise demoP demoDf [[PyVal.str "x", PyVal.str "mean"]]
        (ByArg.valB (PyVal.list [])) =
      summarise demoP demoDf [[PyVal.str "x", PyVal.str "mean"]]
        ByArg.noneB :=
  ⟨rfl, summarise_falsy_by_ungrouped demoP demoDf
    [[PyVal.str "x", PyVal.str "mean"]] (ByArg.valB (PyVal.list [])) rfl⟩

/-- Shared helper: the rename step skips a present-but-falsy name exactly as
it skips an absent one (both fail the truthiness guard of source line 186). -/
theorem applyRename_falsy (v : PyVal) (po : PerOut) (hv : v.truthy = false) :
    applyRename (some v) po = applyRename none po := by
  cases po with
  | single o =>
    cases o with
    | frame f => simp [applyRename, hv]
    | series i => rfl
    | pyval w => rfl
  | many os => rfl
  | rawCols ls => rfl

/-- Shared helper: the executor reads the request name only through its
truthiness, so replacing a falsy name by an absent one changes nothing. -/
theorem execOne_scrubSpec (P : Pandas) (df : Frame) (g : Grouping)
    (a : AggSpec) :
    execOne P df g (scrubSpec a) = execOne P df g a := by
  unfold scrubSpec
  cases hn : a.name with
  | none => rfl
  | some v =>
    by_cases hv : v.truthy = true
    · simp [hv]
    · have hvf : v.truthy = false := by simpa using hv
      simp only [hvf, Bool.false_eq_true, if_false]
      have hr : ∀ po, applyRename (none : Option PyVal) po =
          applyRename (some v) po :=
        fun po => (applyRename_falsy v po hvf).symm
      simp only [execOne, hn, hr]

/-- Shared helper: scrubbing falsy names commutes with the executor loop. -/
theorem execAll_scrub (P : Pandas) (df : Frame) (g : Grouping)
    (as : List AggSpec) :
    execAll P df g (as.map scrubSpec) = execAll P df g as := by
  induction as with
  | nil => rfl
  | cons a rest ih =>
    simp only [List.map_cons, execAll, execOne_scrubSpec, ih]

/-- Shared helper: with an absent name the normalized record is already
scrubbed. -/
theorem normalizeBody_scrub_none (num : Nat) (c f0 : PyVal) :
    (normalizeBody num c f0 none).map scrubSpec =
      normalizeBody num c f0 none := by
  simp only [normalizeBody]
  generalize (if f0.isStr || f0.isCallable then PyVal.list [f0] else f0) = F
  split
  · rfl
  · split <;> rfl

/-- Shared helper: with a truthy name scrubbing is the identity on the
normalized record. -/
theorem normalizeBody_scrub_truthy (num : Nat) (c f0 n : PyVal)
    (hn : n.truthy = true) :
    (normalizeBody num c f0 (some n)).map scrubSpec =
      normalizeBody num c f0 (some n) := by
  simp only [normalizeBody]
  generalize (if f0.isStr || f0.isCallable then PyVal.list [f0] else f0) = F
  split
  · rfl
  · split
    · rfl
    · simp [Except.map, scrubSpec, hn]

/-- Shared helper: a falsy name skips the hashability check (source line
148) and is dropped by scrubbing, matching the absent-name run. -/
theorem normalizeBody_scrub_falsy (num : Nat) (c f0 n : PyVal)
    (hn : n.truthy = false) :
    (normalizeBody num c f0 (some n)).map scrubSpec =
      normalizeBody num c f0 none := by
  have hg1 : ((some n).elim false PyVal.truthy
      && !((some n).getD (PyVal.str "")).isHashable) = false := by
    simp [Option.elim, hn]
  have hg2 : ((none : Option PyVal).elim false PyVal.truthy
      && !(((none : Option PyVal)).getD (PyVal.str "")).isHashable) = false :=
    rfl
  simp only [normalizeBody, hg1, hg2, Bool.false_eq_true, if_false]
  generalize (if f0.isStr || f0.isCallable then PyVal.list [f0] else f0) = F
  split
  · rfl
  · simp [Except.map, scrubSpec, hn]

/-- Shared helper: normalizing a scrubbed raw tuple gives the scrubbed
normalization of the raw tuple. -/
theorem normalizeOne_scrub (num : Nat) (arg : List PyVal) :
    normalizeOne num (scrubArg arg) = (normalizeOne num arg).map scrubSpec := by
  rcases arg with _ | ⟨a, _ | ⟨b, _ | ⟨c, _ | ⟨d, t⟩⟩⟩⟩
  · rfl
  · rfl
  · exact (normalizeBody_scrub_none num a b).symm
  · by_cases hc : c.truthy = true
    · have hs : scrubArg [a, b, c] = [a, b, c] := by simp [scrubArg, hc]
      rw [hs]
      exact (normalizeBody_scrub_truthy num a b c hc).symm
    · have hcf : c.truthy = false := by simpa using hc
      have hs : scrubArg [a, b, c] = [a, b] := by simp [scrubArg, hcf]
      rw [hs]
      exact (normalizeBody_scrub_falsy num a b c hcf).symm
  · have e1 : ¬ ((a :: b :: c :: d :: t).length < 2) := by
      simp only [List.length_cons]; omega
    have e2 : 3 < (a :: b :: c :: d :: t).length := by
      simp only [List.length_cons]; omega
    show normalizeOne num (a :: b :: c :: d :: t) =
      (normalizeOne num (a :: b :: c :: d :: t)).map scrubSpec
    simp only [normalizeOne, if_neg e1, if_pos e2]
    rfl

/-- Shared helper: scrubbing falsy names commutes with the Normalizer
loop. -/
theorem normalizeAll_scrub (num : Nat) (args : List (List PyVal)) :
    normalizeAll num (args.map scrubArg) =
      (normalizeAll num args).map (List.map scrubSpec) := by
  induction args generalizing num with
  | nil => rfl
  | cons arg rest ih =>
    simp only [List.map_cons, normalizeAll, normalizeOne_scrub]
    cases hx : normalizeOne num arg with
    | error e => rfl
    | ok a =>
      dsimp only [Except.map]
      rw [ih]
      cases hy : normalizeAll (num + 1) rest <;> rfl

/-- C9: a raw tuple whose third (name) element is present but falsy — the
empty string, `0`, even an unhashable empty list — is treated exactly as if
the name were absent: dropping every such name (`scrubArg`) leaves the
result of `summarise` unchanged, so the name is never validated as a label
(source line 148 guards the check on truthiness) and no renaming is applied
(source line 186 guards the rename on truthiness). -/
theorem summarise_falsy_name_as_absent (P : Pandas) (df : Frame)
    (args : List (List PyVal)) (b : ByArg) :
    summarise P df (args.map scrubArg) b = summarise P df args b := by
  have hie : (args.map scrubArg).isEmpty = args.isEmpty := by
    cases args <;> rfl
  simp only [summarise, hie, normalizeAll_scrub]
  split
  · rfl
  · cases hn : normalizeAll 0 args with
    | error e => rfl
    | ok aggs =>
      dsimp only [Except.map]
      rw [execAll_scrub]
